import Mathlib

/-!
# Songbird scene orchestration: a shallow embedding

This file embeds the scene-orchestration core of the Songbird spatial-audio
library (`songbird.js` and `listener.js`) in Lean 4 and proves properties of
its spatial-transform pipeline.

Modelling conventions:
* JavaScript numbers are modelled as rationals (`ℚ`); typed-array rounding is
  not modelled.
* In-place mutation is modelled as explicit state passing: a method on an
  object becomes a function from the object's state to its new state, and a
  caller-visible mutation of an argument object is returned alongside the
  result.
* Calls into the external rendering backend (`renderer.setRotationMatrix`) and
  into other stateful collaborators (`Room.setListenerPosition`,
  `Source._update`) are recorded as events, so that ordering and multiplicity
  of those calls can be stated.
* `undefined` option fields are modelled as `Option.none`.
-/

/-- A 3-component vector of rationals, standing for a JS triple / `Float32Array(3)`. -/
structure Vec3 where
  x : ℚ
  y : ℚ
  z : ℚ
deriving DecidableEq, Repr

/-- Modelled from the spec: `Utils.crossProduct` lives in `utils.js`, which is not
under `src/`; the spec fixes the convention `right = forward × up` in a
right-handed basis, i.e. the standard cross product. -/
def Utils.crossProduct (a b : Vec3) : Vec3 :=
  ⟨a.y * b.z - a.z * b.y, a.z * b.x - a.x * b.z, a.x * b.y - a.y * b.x⟩

/-- The first nine entries of the listener's `_tempMatrix4` buffer: the 3x3
rotation submatrix handed to the rendering backend, in row order
right (m0-m2), up (m3-m5), forward (m6-m8). Entries 9-15 of the
`Float32Array(16)` are never touched by the code and are omitted. -/
structure Matrix3 where
  m0 : ℚ
  m1 : ℚ
  m2 : ℚ
  m3 : ℚ
  m4 : ℚ
  m5 : ℚ
  m6 : ℚ
  m7 : ℚ
  m8 : ℚ
deriving DecidableEq, Repr

/-- The identity 3x3 rotation submatrix. -/
def identity3 : Matrix3 := ⟨1, 0, 0, 0, 1, 0, 0, 0, 1⟩

/-- A Three.js `Matrix4`: sixteen elements in column-major order, as read by
`Listener.setFromMatrix` via `matrix4.elements[i]`. -/
structure Matrix4 where
  e0 : ℚ
  e1 : ℚ
  e2 : ℚ
  e3 : ℚ
  e4 : ℚ
  e5 : ℚ
  e6 : ℚ
  e7 : ℚ
  e8 : ℚ
  e9 : ℚ
  e10 : ℚ
  e11 : ℚ
  e12 : ℚ
  e13 : ℚ
  e14 : ℚ
  e15 : ℚ
deriving DecidableEq, Repr

/-- The rotation submatrix that `Listener.setOrientation` assembles
(listener.js lines 206-216): entries 0-2 hold `right = crossProduct(forward, up)`,
entries 3-5 hold `up`, entries 6-8 hold `forward`. -/
def orientationMatrix (forward up : Vec3) : Matrix3 :=
  let right := Utils.crossProduct forward up
  ⟨right.x, right.y, right.z, up.x, up.y, up.z, forward.x, forward.y, forward.z⟩

/-- State of a `Listener` object (listener.js): its `position` member
(a `Float32Array(3)`, zero-initialised at construction), its `_tempMatrix4`
rotation buffer, the ambisonic order handed to the renderer, the HRIR url
list selected at construction, and the sequence of rotation matrices pushed
to the rendering backend via `renderer.setRotationMatrix`, in call order. -/
structure ListenerState where
  position : Vec3
  tempMatrix4 : Matrix3
  ambisonicOrder : ℚ
  hrirUrls : List String
  pushedMatrices : List Matrix3
deriving DecidableEq, Repr

/-- `Listener.prototype.setOrientation` (listener.js lines 204-218): computes
`right = crossProduct([forward], [up])`, writes right/up/forward into rows
0/1/2 of `_tempMatrix4`, and pushes the matrix to the renderer. There is no
validation of the input pair. -/
def ListenerState.setOrientation (s : ListenerState) (forward up : Vec3) : ListenerState :=
  let m := orientationMatrix forward up
  { s with tempMatrix4 := m, pushedMatrices := s.pushedMatrices ++ [m] }

/-- `Listener.prototype.setFromMatrix` (listener.js lines 226-243): copies the
three basis columns of the Three.js matrix (elements 0-2, 4-6, 8-10) into the
rotation buffer, pushes it to the renderer, then overwrites `position` with
the translation column (elements 12, 13, 14). -/
def ListenerState.setFromMatrix (s : ListenerState) (m : Matrix4) : ListenerState :=
  let r : Matrix3 := ⟨m.e0, m.e1, m.e2, m.e4, m.e5, m.e6, m.e8, m.e9, m.e10⟩
  { s with tempMatrix4 := r,
           pushedMatrices := s.pushedMatrices ++ [r],
           position := ⟨m.e12, m.e13, m.e14⟩ }

/-- Modelled from the spec: `utils.js` is not under `src/`. The spec's §8
scenario fixes the default listener position as (0,0,0), which also matches
the zero-initialised `Float32Array(3)` in the Listener constructor. -/
def Utils.DEFAULT_POSITION : Vec3 := ⟨0, 0, 0⟩

/-- Modelled from the spec: `utils.js` is not under `src/`; the spec records
only that the default forward vector is a unit vector (§6) and no claim's
truth depends on its concrete value. Fixed to the -z unit vector. -/
def Utils.DEFAULT_FORWARD : Vec3 := ⟨0, 0, -1⟩

/-- Modelled from the spec: `utils.js` is not under `src/`; the spec records
only that the default up vector is a unit vector (§6) and no claim's truth
depends on its concrete value. Fixed to the +y unit vector. -/
def Utils.DEFAULT_UP : Vec3 := ⟨0, 1, 0⟩

/-- Modelled from the spec: `encoder.js` is not under `src/`; the spec
constrains the ambisonic order to {1,2,3} (§3) but does not record the
default's concrete value, and no claim depends on it. Fixed to 1. -/
def Encoder.DEFAULT_AMBISONIC_ORDER : ℚ := 1

/-- Modelled from the spec: the Encoder component (`encoder.js`, not under
`src/`) "determines ambisonic channel count" for a configured order "via
`(order+1)²`" (§2, §3). -/
def ambisonicChannelCount (order : ℕ) : ℕ := (order + 1) ^ 2

/-- The internal dependencies that `listener.js` requires (lines 53-55):
`omnitone.js` and `utils.js` only. In particular `encoder.js` is absent,
although line 112 of listener.js references the identifier `Encoder`. -/
def listenerInternalDependencies : List String := ["./omnitone.js", "./utils.js"]

/-- The options object accepted by the Listener constructor; `none` models a
field the caller left `undefined`. -/
structure ListenerOptions where
  ambisonicOrder : Option ℚ
  position : Option Vec3
  forward : Option Vec3
  up : Option Vec3
deriving DecidableEq, Repr

/-- A runtime error raised during Listener construction. Under strict mode,
evaluating an identifier that is bound by no `require` and no declaration
raises a `ReferenceError` naming that identifier. -/
inductive ListenerConstructError where
  | referenceError (ident : String)
deriving DecidableEq, Repr

/-- The HRIR filter url selection of the Listener constructor (listener.js
lines 130-160): `urls` starts as `['']` and is reassigned only when the order
is 1, 2 or 3; the final `else` branch holds only a TODO comment and leaves
the placeholder list in place. -/
def hrirUrlsForOrder (order : ℚ) : List String :=
  if order = 1 then
    ["https://cdn.rawgit.com/google/songbird/master/build/resources/foa-1-2.wav",
     "https://cdn.rawgit.com/google/songbird/master/build/resources/foa-3-4.wav"]
  else if order = 2 then
    ["https://cdn.rawgit.com/google/songbird/master/build/resources/soa-1-2.wav",
     "https://cdn.rawgit.com/google/songbird/master/build/resources/soa-3-4.wav",
     "https://cdn.rawgit.com/google/songbird/master/build/resources/soa-5-6.wav",
     "https://cdn.rawgit.com/google/songbird/master/build/resources/soa-7-8.wav",
     "https://cdn.rawgit.com/google/songbird/master/build/resources/soa-9.wav"]
  else if order = 3 then
    ["https://cdn.rawgit.com/google/songbird/master/build/resources/toa-1-2.wav",
     "https://cdn.rawgit.com/google/songbird/master/build/resources/toa-3-4.wav",
     "https://cdn.rawgit.com/google/songbird/master/build/resources/toa-5-6.wav",
     "https://cdn.rawgit.com/google/songbird/master/build/resources/toa-7-8.wav",
     "https://cdn.rawgit.com/google/songbird/master/build/resources/toa-9-10.wav",
     "https://cdn.rawgit.com/google/songbird/master/build/resources/toa-11-12.wav",
     "https://cdn.rawgit.com/google/songbird/master/build/resources/toa-13-14.wav",
     "https://cdn.rawgit.com/google/songbird/master/build/resources/toa-15-16.wav"]
  else
    [""]

/-- The Listener constructor body after option defaults are resolved
(listener.js lines 124-192): `position` is a fresh zero array (line 125 —
`options.position` is never copied into it), the rotation buffer starts
zeroed, the HRIR urls are selected from the order, and the constructor ends
by calling `setOrientation` with the resolved forward/up (lines 190-191),
which pushes the initial rotation matrix to the renderer. -/
def Listener.constructResolved (order : ℚ) (forward up : Vec3) : ListenerState :=
  let s : ListenerState :=
    { position := ⟨0, 0, 0⟩,
      tempMatrix4 := ⟨0, 0, 0, 0, 0, 0, 0, 0, 0⟩,
      ambisonicOrder := order,
      hrirUrls := hrirUrlsForOrder order,
      pushedMatrices := [] }
  s.setOrientation forward up

/-- The Listener constructor (listener.js lines 78-192). When
`options.ambisonicOrder` is `undefined`, line 112 evaluates the free
identifier `Encoder`; listener.js requires only the modules in
`listenerInternalDependencies`, so under strict mode that lookup raises a
ReferenceError and construction aborts. Otherwise the constructor resolves
the remaining defaults (forward/up via the imported `Utils`) and runs the
resolved body. -/
def Listener.construct (options : ListenerOptions) :
    Except ListenerConstructError ListenerState :=
  match options.ambisonicOrder with
  | none =>
      if "./encoder.js" ∈ listenerInternalDependencies then
        .ok (Listener.constructResolved Encoder.DEFAULT_AMBISONIC_ORDER
          (options.forward.getD Utils.DEFAULT_FORWARD)
          (options.up.getD Utils.DEFAULT_UP))
      else
        .error (.referenceError "Encoder")
  | some order =>
      .ok (Listener.constructResolved order
        (options.forward.getD Utils.DEFAULT_FORWARD)
        (options.up.getD Utils.DEFAULT_UP))

/-- Room dimensions (width/height/depth in meters), as carried by the
`dimensions` option. -/
structure RoomDimensions where
  width : ℚ
  height : ℚ
  depth : ℚ
deriving DecidableEq, Repr

/-- Named acoustic materials, one per wall of the six-walled room (§3). -/
structure RoomMaterials where
  left : String
  right : String
  front : String
  back : String
  down : String
  up : String
deriving DecidableEq, Repr

/-- Modelled from the spec: `early-reflections.js` is not under `src/`; the
concrete default dimensions are not recorded in the spec and no claim depends
on them. Fixed to a representative room. -/
def EarlyReflections.DEFAULT_DIMENSIONS : RoomDimensions := ⟨1, 1, 1⟩

/-- Modelled from the spec: `room.js` is not under `src/`; the concrete
default material names are not recorded in the spec and no claim depends on
them. Fixed to a representative assignment. -/
def Room.DEFAULT_MATERIALS : RoomMaterials :=
  ⟨"transparent", "transparent", "transparent", "transparent", "transparent", "transparent"⟩

/-- Modelled from the spec: `utils.js` is not under `src/`; the spec records
only the unit (meters/second, §6) and no claim depends on the value. -/
def Utils.DEFAULT_SPEED_OF_SOUND : ℚ := 343

/-- The options object accepted by the Songbird constructor (songbird.js
lines 61-104); `none` models a field the caller left `undefined`. -/
structure SongbirdOptions where
  ambisonicOrder : Option ℚ
  listenerPosition : Option Vec3
  listenerForward : Option Vec3
  listenerUp : Option Vec3
  dimensions : Option RoomDimensions
  materials : Option RoomMaterials
  speedOfSound : Option ℚ
deriving DecidableEq, Repr

/-- The default-filling prologue of the Songbird constructor (songbird.js
lines 82-104): each recognized field that is `undefined` is assigned its
default *on the caller's options object itself*. In-place mutation is
modelled by returning the updated object; the constructor hands this updated
object back to the caller (see `Songbird.construct`). -/
def songbirdFillOptions (options : SongbirdOptions) : SongbirdOptions :=
  { ambisonicOrder := some (options.ambisonicOrder.getD Encoder.DEFAULT_AMBISONIC_ORDER),
    listenerPosition := some (options.listenerPosition.getD Utils.DEFAULT_POSITION),
    listenerForward := some (options.listenerForward.getD Utils.DEFAULT_FORWARD),
    listenerUp := some (options.listenerUp.getD Utils.DEFAULT_UP),
    dimensions := some (options.dimensions.getD EarlyReflections.DEFAULT_DIMENSIONS),
    materials := some (options.materials.getD Room.DEFAULT_MATERIALS),
    speedOfSound := some (options.speedOfSound.getD Utils.DEFAULT_SPEED_OF_SOUND) }

/-- Modelled from the spec: `source.js` is not under `src/`. A Source's
`update()` "recomputes attenuation gain ... directivity gain ... encoding
coefficients" from the current listener transform (§4.2); the claims below
concern only which sources get updated, how often and in what order, so an
update is modelled as an increment of `updateCount` (plus a trace event on
the owning scene). `id` is the source's creation index, identifying it in
the trace. -/
structure SourceState where
  id : ℕ
  updateCount : ℕ
deriving DecidableEq, Repr

/-- Observable calls a scene mutation makes on its collaborators, in program
order: the write into `listener.position`, the forwarding call
`room.setListenerPosition`, and each `source._update()` call. -/
inductive SceneEvent where
  | listenerPositionWrite (p : Vec3)
  | roomSetListenerPosition (p : Vec3)
  | sourceUpdate (id : ℕ)
deriving DecidableEq, Repr

/-- State of a `Songbird` scene (songbird.js): the Listener, the Room's
listener reference point and configuration (the Room's reflection internals
live in `room.js`, outside `src/`, and are not needed by any claim), the
ordered source collection `_sources`, a counter handing out source ids, and
the trace of collaborator calls made so far. -/
structure SongbirdState where
  listener : ListenerState
  roomListenerPosition : Vec3
  roomDimensions : RoomDimensions
  roomMaterials : RoomMaterials
  speedOfSound : ℚ
  sources : List SourceState
  nextSourceId : ℕ
  trace : List SceneEvent
deriving DecidableEq, Repr

/-- `Songbird.prototype.setListenerPosition` (songbird.js lines 190-201):
writes x, y, z into `listener.position` (lines 192-194, recorded as one
event), calls `room.setListenerPosition(x, y, z)` (line 195), then runs
`_sources.forEach(element => element._update())` (lines 198-200), which
visits the collection front to back. -/
def SongbirdState.setListenerPosition (s : SongbirdState) (x y z : ℚ) : SongbirdState :=
  let s1 : SongbirdState :=
    { s with listener := { s.listener with position := ⟨x, y, z⟩ },
             trace := s.trace ++ [SceneEvent.listenerPositionWrite ⟨x, y, z⟩] }
  let s2 : SongbirdState :=
    { s1 with roomListenerPosition := ⟨x, y, z⟩,
              trace := s1.trace ++ [SceneEvent.roomSetListenerPosition ⟨x, y, z⟩] }
  { s2 with
      sources := s2.sources.map (fun src => { src with updateCount := src.updateCount + 1 }),
      trace := s2.trace ++ s2.sources.map (fun src => SceneEvent.sourceUpdate src.id) }

/-- `Songbird.prototype.createSource` (songbird.js lines 162-168): constructs
a Source bound to this scene, appends it at index `_sources.length` (i.e. at
the end of the collection) and returns the object's reference to the user.
The per-source configuration handled inside `source.js` (outside `src/`)
plays no role in the claims and is not modelled. -/
def SongbirdState.createSource (s : SongbirdState) : SourceState × SongbirdState :=
  let source : SourceState := { id := s.nextSourceId, updateCount := 0 }
  (source, { s with sources := s.sources ++ [source], nextSourceId := s.nextSourceId + 1 })

/-- `n` successive `createSource` calls, returning the final scene state and
the list of handles returned to the caller, in call order. -/
def SongbirdState.createSources (s : SongbirdState) : ℕ → SongbirdState × List SourceState
  | 0 => (s, [])
  | n + 1 =>
      let (source, s1) := s.createSource
      let (s2, rest) := s1.createSources n
      (s2, source :: rest)

/-- `Songbird.prototype.setListenerOrientation` (songbird.js lines 213-217):
pure delegation to `listener.setOrientation`. -/
def SongbirdState.setListenerOrientation (s : SongbirdState) (forward up : Vec3) :
    SongbirdState :=
  { s with listener := s.listener.setOrientation forward up }

/-- `Songbird.prototype.setListenerFromMatrix` (songbird.js lines 225-231):
delegates to `listener.setFromMatrix(matrix)`, then calls
`this.setListenerPosition` with the three components the delegation just
stored in `listener.position`. -/
def SongbirdState.setListenerFromMatrix (s : SongbirdState) (matrix : Matrix4) :
    SongbirdState :=
  let s1 := { s with listener := s.listener.setFromMatrix matrix }
  s1.setListenerPosition s1.listener.position.x s1.listener.position.y s1.listener.position.z

/-- The Songbird constructor (songbird.js lines 61-133): fills defaults into
the caller's options object (lines 79-104), creates the empty `_sources`
collection, the Room (receiving the resolved listener position, dimensions,
materials and speed of sound, lines 111-116) and the Listener (receiving the
resolved order, position, forward and up, lines 117-122). The constructor
returns both the scene and the caller's (now mutated) options object; a
Listener construction error propagates to the caller. -/
def Songbird.construct (options : SongbirdOptions) :
    Except ListenerConstructError (SongbirdState × SongbirdOptions) :=
  let opts := songbirdFillOptions options
  match Listener.construct
      { ambisonicOrder := opts.ambisonicOrder,
        position := opts.listenerPosition,
        forward := opts.listenerForward,
        up := opts.listenerUp } with
  | .error e => .error e
  | .ok listener =>
      .ok ({ listener := listener,
             roomListenerPosition := opts.listenerPosition.getD Utils.DEFAULT_POSITION,
             roomDimensions := opts.dimensions.getD EarlyReflections.DEFAULT_DIMENSIONS,
             roomMaterials := opts.materials.getD Room.DEFAULT_MATERIALS,
             speedOfSound := opts.speedOfSound.getD Utils.DEFAULT_SPEED_OF_SOUND,
             sources := [],
             nextSourceId := 0,
             trace := [] }, opts)

/-- Claim C2: `setOrientation` computes `right` as the cross product
`forward × up` and pushes to the rendering backend a matrix whose rows are
[right, up, forward]: right in elements 0-2, up in elements 3-5, forward in
elements 6-8. Exactly one push happens, and the buffer holds the pushed
matrix. -/
theorem setOrientation_rows_right_up_forward (l : ListenerState) (f u : Vec3) :
    (l.setOrientation f u).pushedMatrices = l.pushedMatrices ++ [orientationMatrix f u] ∧
    (l.setOrientation f u).tempMatrix4 = orientationMatrix f u ∧
    (orientationMatrix f u).m0 = (Utils.crossProduct f u).x ∧
    (orientationMatrix f u).m1 = (Utils.crossProduct f u).y ∧
    (orientationMatrix f u).m2 = (Utils.crossProduct f u).z ∧
    (orientationMatrix f u).m3 = u.x ∧
    (orientationMatrix f u).m4 = u.y ∧
    (orientationMatrix f u).m5 = u.z ∧
    (orientationMatrix f u).m6 = f.x ∧
    (orientationMatrix f u).m7 = f.y ∧
    (orientationMatrix f u).m8 = f.z ∧
    (Utils.crossProduct f u).x = f.y * u.z - f.z * u.y ∧
    (Utils.crossProduct f u).y = f.z * u.x - f.x * u.z ∧
    (Utils.crossProduct f u).z = f.x * u.y - f.y * u.x :=
  ⟨rfl, rfl, rfl, rfl, rfl, rfl, rfl, rfl, rfl, rfl, rfl, rfl, rfl, rfl⟩

/-- Claim C3 counterexample: with the parallel pair forward = up = (0,0,1),
whose cross product is the zero vector, `setOrientation` does not reject or
ignore the transform: starting from a listener with no pushes, it pushes the
degenerate matrix (zero right row) to the rendering backend. -/
theorem setOrientation_parallel_pair_still_pushes :
    Utils.crossProduct ⟨0, 0, 1⟩ ⟨0, 0, 1⟩ = ⟨0, 0, 0⟩ ∧
    (ListenerState.setOrientation
        ⟨⟨0, 0, 0⟩, ⟨0, 0, 0, 0, 0, 0, 0, 0, 0⟩, 1, [], []⟩ ⟨0, 0, 1⟩ ⟨0, 0, 1⟩).pushedMatrices
      = [⟨0, 0, 0, 0, 0, 1, 0, 0, 1⟩] := by
  constructor <;>
    norm_num [Utils.crossProduct, ListenerState.setOrientation, orientationMatrix]

/-- Claim C3 amended: `setOrientation` performs no validation: even for a
forward/up pair whose cross product is the zero vector (parallel vectors), it
pushes the matrix — whose right row is then zero — to the rendering
backend. -/
theorem setOrientation_no_validation (l : ListenerState) (f u : Vec3)
    (h : Utils.crossProduct f u = ⟨0, 0, 0⟩) :
    (l.setOrientation f u).pushedMatrices
      = l.pushedMatrices ++ [⟨0, 0, 0, u.x, u.y, u.z, f.x, f.y, f.z⟩] := by
  simp [ListenerState.setOrientation, orientationMatrix, h]

/-- Witness for the amended C3 at forward = up = (0,0,1). -/
theorem setOrientation_no_validation_witness :
    (ListenerState.setOrientation
        ⟨⟨0, 0, 0⟩, ⟨0, 0, 0, 0, 0, 0, 0, 0, 0⟩, 1, [], []⟩ ⟨0, 0, 1⟩ ⟨0, 0, 1⟩).pushedMatrices
      = [] ++ [⟨0, 0, 0, 0, 0, 1, 0, 0, 1⟩] :=
  setOrientation_no_validation ⟨⟨0, 0, 0⟩, ⟨0, 0, 0, 0, 0, 0, 0, 0, 0⟩, 1, [], []⟩
    ⟨0, 0, 1⟩ ⟨0, 0, 1⟩ (by norm_num [Utils.crossProduct])

/-- Claim C6: after `setFromMatrix(matrix)`, the listener's stored position
equals the matrix's translation column — elements 12, 13 and 14 — exactly,
component for component. -/
theorem setFromMatrix_position_eq_translation (l : ListenerState) (m : Matrix4) :
    (l.setFromMatrix m).position = ⟨m.e12, m.e13, m.e14⟩ ∧
    (l.setFromMatrix m).position.x = m.e12 ∧
    (l.setFromMatrix m).position.y = m.e13 ∧
    (l.setFromMatrix m).position.z = m.e14 :=
  ⟨rfl, rfl, rfl, rfl⟩

/-- Claim C10: constructing a Listener with `options.ambisonicOrder`
undefined does not complete with the documented default order: the default
branch evaluates `Encoder.DEFAULT_AMBISONIC_ORDER`, but `encoder.js` is not
among the modules listener.js requires, so construction fails with a
ReferenceError naming `Encoder`. -/
theorem listener_missing_order_reference_error (position forward up : Option Vec3) :
    "./encoder.js" ∉ listenerInternalDependencies ∧
    Listener.construct ⟨none, position, forward, up⟩
      = .error (.referenceError "Encoder") := by
  constructor
  · decide
  · rfl

/-- Claim C4 counterexample: constructing a Listener with ambisonic order 4 —
outside {1,2,3} — does not report a configuration error at construction
time: construction completes normally, with the impulse-response url list
left at the constructor's placeholder value `['']`. -/
theorem listener_order4_no_configuration_error :
    Listener.construct ⟨some 4, none, none, none⟩
      = .ok (Listener.constructResolved 4 Utils.DEFAULT_FORWARD Utils.DEFAULT_UP) ∧
    (Listener.constructResolved 4 Utils.DEFAULT_FORWARD Utils.DEFAULT_UP).hrirUrls
      = [""] := by
  constructor <;> rfl

/-- Claim C4 amended: constructing a Listener with an ambisonic order outside
{1,2,3} does not report any error to the caller: construction completes (the
invalid-order branch holds only a TODO comment), with the impulse-response
asset list left at the placeholder `['']`. -/
theorem listener_invalid_order_silent_fallback (options : ListenerOptions) (q : ℚ)
    (horder : options.ambisonicOrder = some q)
    (h1 : q ≠ 1) (h2 : q ≠ 2) (h3 : q ≠ 3) :
    Listener.construct options
      = .ok (Listener.constructResolved q (options.forward.getD Utils.DEFAULT_FORWARD)
          (options.up.getD Utils.DEFAULT_UP)) ∧
    (Listener.constructResolved q (options.forward.getD Utils.DEFAULT_FORWARD)
          (options.up.getD Utils.DEFAULT_UP)).hrirUrls = [""] := by
  constructor
  · simp [Listener.construct, horder]
  · simp [Listener.constructResolved, ListenerState.setOrientation,
      hrirUrlsForOrder, h1, h2, h3]

/-- Witness for the amended C4 at order 4 with all other options left
undefined. -/
theorem listener_invalid_order_silent_fallback_witness :
    Listener.construct ⟨some 4, none, none, none⟩
      = .ok (Listener.constructResolved 4 Utils.DEFAULT_FORWARD Utils.DEFAULT_UP) ∧
    (Listener.constructResolved 4 Utils.DEFAULT_FORWARD Utils.DEFAULT_UP).hrirUrls
      = [""] :=
  listener_invalid_order_silent_fallback ⟨some 4, none, none, none⟩ 4 rfl
    (by norm_num) (by norm_num) (by norm_num)

/-- Claim C8 counterexample: constructing a Listener with ambisonicOrder 1
and the default forward/up vectors pushes, via the initial `setOrientation`,
the rotation submatrix diag(1, 1, -1) — not the identity: the third row is
the forward vector, which points along -z when the first row is +x. -/
theorem initial_rotation_matrix_not_identity :
    (Listener.construct ⟨some 1, none, none, none⟩).toOption.map ListenerState.pushedMatrices
      = some [⟨1, 0, 0, 0, 1, 0, 0, 0, -1⟩] ∧
    (⟨1, 0, 0, 0, 1, 0, 0, 0, -1⟩ : Matrix3) ≠ identity3 := by
  constructor
  · norm_num [Listener.construct, Listener.constructResolved, ListenerState.setOrientation,
      orientationMatrix, Utils.crossProduct, Utils.DEFAULT_FORWARD, Utils.DEFAULT_UP,
      Except.toOption, Option.map]
  · norm_num [identity3]

/-- Claim C8 amended: ambisonicOrder 1 yields channel count (1+1)² = 4, and
construction with the default position (0,0,0) and default forward/up pushes
exactly one rotation submatrix, the orientationMatrix of the default
vectors — which is not the identity. Indeed no forward/up pair at all makes
the pushed submatrix the identity: rows [forward × up, up, forward] =
identity would force up = (0,1,0) and forward = (0,0,1), whose cross product
is (-1,0,0) rather than the required first row (1,0,0). -/
theorem order1_channel_count_and_initial_rotation :
    ambisonicChannelCount 1 = 4 ∧
    (Listener.construct ⟨some 1, none, none, none⟩).toOption.map ListenerState.pushedMatrices
      = some [orientationMatrix Utils.DEFAULT_FORWARD Utils.DEFAULT_UP] ∧
    (Listener.construct ⟨some 1, none, none, none⟩).toOption.map ListenerState.position
      = some ⟨0, 0, 0⟩ ∧
    (∀ forward up : Vec3, orientationMatrix forward up ≠ identity3) := by
  refine ⟨rfl, rfl, rfl, ?_⟩
  intro f u h
  have h0 := congrArg Matrix3.m0 h
  have h4 := congrArg Matrix3.m4 h
  have h5 := congrArg Matrix3.m5 h
  have h7 := congrArg Matrix3.m7 h
  have h8 := congrArg Matrix3.m8 h
  simp only [orientationMatrix, Utils.crossProduct, identity3] at h0 h4 h5 h7 h8
  rw [h4, h5, h7, h8] at h0
  norm_num at h0

/-- Claim C1: `setListenerPosition(x, y, z)` first writes (x,y,z) into the
listener's position, then forwards the same coordinates to
`Room.setListenerPosition`, and only then calls `update()` exactly once on
each source of the collection, in collection order: the call trace it appends
is the position write, the room call, then one `sourceUpdate` per source in
collection order, and every source's update count rises by exactly one while
the collection itself (its ids and order) is unchanged. -/
theorem setListenerPosition_full_pass (s : SongbirdState) (x y z : ℚ) :
    (s.setListenerPosition x y z).listener.position = ⟨x, y, z⟩ ∧
    (s.setListenerPosition x y z).roomListenerPosition = ⟨x, y, z⟩ ∧
    (s.setListenerPosition x y z).trace
      = s.trace ++ (SceneEvent.listenerPositionWrite ⟨x, y, z⟩ ::
          SceneEvent.roomSetListenerPosition ⟨x, y, z⟩ ::
          s.sources.map (fun src => SceneEvent.sourceUpdate src.id)) ∧
    (s.setListenerPosition x y z).sources.map (fun src => src.id)
      = s.sources.map (fun src => src.id) ∧
    (s.setListenerPosition x y z).sources.map (fun src => src.updateCount)
      = s.sources.map (fun src => src.updateCount + 1) := by
  refine ⟨rfl, rfl, ?_, ?_, ?_⟩ <;>
    simp [SongbirdState.setListenerPosition, List.map_map, Function.comp]

/-- Claim C5: `setListenerFromMatrix(matrix)` delegates to
`Listener.setFromMatrix` and then performs the very same full pass as
`setListenerPosition` with the newly extracted position (the matrix's
translation column): it is equal to that composition, the Room receives the
extracted position, and every source is updated exactly once, in collection
order. -/
theorem setListenerFromMatrix_full_pass (s : SongbirdState) (m : Matrix4) :
    s.setListenerFromMatrix m
      = SongbirdState.setListenerPosition
          { s with listener := s.listener.setFromMatrix m } m.e12 m.e13 m.e14 ∧
    (s.setListenerFromMatrix m).listener.position = ⟨m.e12, m.e13, m.e14⟩ ∧
    (s.setListenerFromMatrix m).roomListenerPosition = ⟨m.e12, m.e13, m.e14⟩ ∧
    (s.setListenerFromMatrix m).trace
      = s.trace ++ (SceneEvent.listenerPositionWrite ⟨m.e12, m.e13, m.e14⟩ ::
          SceneEvent.roomSetListenerPosition ⟨m.e12, m.e13, m.e14⟩ ::
          s.sources.map (fun src => SceneEvent.sourceUpdate src.id)) ∧
    (s.setListenerFromMatrix m).sources.map (fun src => src.updateCount)
      = s.sources.map (fun src => src.updateCount + 1) := by
  refine ⟨rfl, rfl, rfl, ?_, ?_⟩ <;>
    simp [SongbirdState.setListenerFromMatrix, SongbirdState.setListenerPosition,
      ListenerState.setFromMatrix, List.map_map, Function.comp]

/-- Unfolding equation for one step of `createSources`. -/
lemma createSources_succ (s : SongbirdState) (n : ℕ) :
    s.createSources (n + 1)
      = ((s.createSource.2.createSources n).1,
         s.createSource.1 :: (s.createSource.2.createSources n).2) := rfl

/-- After `n` calls, the collection is the old one extended by exactly the
`n` returned handles, in call order. -/
lemma createSources_spec : ∀ (n : ℕ) (s : SongbirdState),
    (s.createSources n).1.sources = s.sources ++ (s.createSources n).2 ∧
    (s.createSources n).2.length = n
  | 0, s => by simp [SongbirdState.createSources]
  | n + 1, s => by
    obtain ⟨h1, h2⟩ := createSources_spec n s.createSource.2
    rw [createSources_succ]
    refine ⟨?_, ?_⟩
    · rw [h1]
      simp [SongbirdState.createSource]
    · simp [h2]

/-- Claim C7: every `createSource` call appends the newly constructed source
at the end of the collection and returns that source to the caller; after `n`
calls the collection holds exactly the prior sources followed by the `n`
returned handles in creation order, with nothing deduplicated or removed. -/
theorem createSource_appends_and_returns (s : SongbirdState) (n : ℕ) :
    s.createSource.2.sources = s.sources ++ [s.createSource.1] ∧
    (s.createSources n).1.sources = s.sources ++ (s.createSources n).2 ∧
    (s.createSources n).2.length = n :=
  ⟨rfl, (createSources_spec n s).1, (createSources_spec n s).2⟩

/-- Claim C9: the Songbird constructor mutates the caller's options object in
place: construction hands the caller back the object with every missing
recognized field overwritten by its default — each field that was undefined
now holds the default value — and filling is idempotent, so a shared options
object reused across constructions carries into the second construction the
defaults filled in by the first, unchanged. -/
theorem songbird_constructor_fills_options_in_place (o : SongbirdOptions) :
    (∃ scene, Songbird.construct o = Except.ok (scene, songbirdFillOptions o)) ∧
    (o.ambisonicOrder = none →
      (songbirdFillOptions o).ambisonicOrder = some Encoder.DEFAULT_AMBISONIC_ORDER) ∧
    (o.listenerPosition = none →
      (songbirdFillOptions o).listenerPosition = some Utils.DEFAULT_POSITION) ∧
    (o.listenerForward = none →
      (songbirdFillOptions o).listenerForward = some Utils.DEFAULT_FORWARD) ∧
    (o.listenerUp = none →
      (songbirdFillOptions o).listenerUp = some Utils.DEFAULT_UP) ∧
    (o.dimensions = none →
      (songbirdFillOptions o).dimensions = some EarlyReflections.DEFAULT_DIMENSIONS) ∧
    (o.materials = none →
      (songbirdFillOptions o).materials = some Room.DEFAULT_MATERIALS) ∧
    (o.speedOfSound = none →
      (songbirdFillOptions o).speedOfSound = some Utils.DEFAULT_SPEED_OF_SOUND) ∧
    songbirdFillOptions (songbirdFillOptions o) = songbirdFillOptions o := by
  refine ⟨⟨_, rfl⟩, ?_, ?_, ?_, ?_, ?_, ?_, ?_, ?_⟩
  all_goals first
    | (intro h; simp [songbirdFillOptions, h])
    | simp [songbirdFillOptions]

/-- Witness for C9 at an options object with every recognized field left
undefined: each field of the handed-back object holds the default, and
feeding the handed-back object to a second fill leaves it unchanged. -/
theorem songbird_constructor_fills_options_in_place_witness :
    (songbirdFillOptions ⟨none, none, none, none, none, none, none⟩).ambisonicOrder
        = some Encoder.DEFAULT_AMBISONIC_ORDER ∧
    (songbirdFillOptions ⟨none, none, none, none, none, none, none⟩).listenerPosition
        = some Utils.DEFAULT_POSITION ∧
    (songbirdFillOptions ⟨none, none, none, none, none, none, none⟩).listenerForward
        = some Utils.DEFAULT_FORWARD ∧
    (songbirdFillOptions ⟨none, none, none, none, none, none, none⟩).listenerUp
        = some Utils.DEFAULT_UP ∧
    (songbirdFillOptions ⟨none, none, none, none, none, none, none⟩).dimensions
        = some EarlyReflections.DEFAULT_DIMENSIONS ∧
    (songbirdFillOptions ⟨none, none, none, none, none, none, none⟩).materials
        = some Room.DEFAULT_MATERIALS ∧
    (songbirdFillOptions ⟨none, none, none, none, none, none, none⟩).speedOfSound
        = some Utils.DEFAULT_SPEED_OF_SOUND ∧
    songbirdFillOptions (songbirdFillOptions ⟨none, none, none, none, none, none, none⟩)
        = songbirdFillOptions ⟨none, none, none, none, none, none, none⟩ := by
  have h := songbird_constructor_fills_options_in_place
    ⟨none, none, none, none, none, none, none⟩
  exact ⟨h.2.1 rfl, h.2.2.1 rfl, h.2.2.2.1 rfl, h.2.2.2.2.1 rfl,
    h.2.2.2.2.2.1 rfl, h.2.2.2.2.2.2.1 rfl, h.2.2.2.2.2.2.2.1 rfl,
    h.2.2.2.2.2.2.2.2⟩
